import Mathlib

/-!
Verification of the icon generator (src/icons/generate_icons.py).

The script draws three square PNG icons: a vertical gradient background,
a centered "AI" label, and a small white "cursor" rectangle, then saves
each image.  We give a shallow embedding of the script and settle the
specification's claims against it.

Modelling conventions:
* Python floats are modelled as exact rationals; at every concrete input
  appearing in a theorem below the IEEE double computation of the script
  agrees with the exact rational value (checked by hand for the constants
  0.70, 0.39, 0.03, 0.25, 0.45, 0.05 at the sizes involved).
* Python `int(...)` truncates toward zero; it is modelled by `pyInt`.
  Python `//` is floor division, modelled by `Int.fdiv`.
* A PIL `RGB` image is a total pixel function together with its width and
  height; drawing primitives clip to the image rectangle exactly as PIL
  does, and `draw.line` / `draw.rectangle` include both endpoints/corners.
* A fill colour carrying an alpha component is converted to an ink for an
  RGB image by dropping the alpha component (`inkRGB`), as PIL does.
* The text engine of PIL (glyph bounding boxes and coverage masks) is kept
  abstract in a `FontMetrics` record; nothing in the claims depends on the
  concrete shapes of glyphs.
* The ambient world of one run — whether the DejaVuSans-Bold truetype file
  loads, and which output paths are writable — is an `Env` record.
  `ImageFont.truetype` failing is the `fontOk := false` case; the bare
  `except:` of the script then selects `ImageFont.load_default()`.
* `img.save(filename, 'PNG')` succeeds iff the path is writable; on
  failure it raises the library's `IOError`, modelled in `PILError`.
-/

namespace Icons

/-- An RGB colour: one integer per channel, in range 0..255 in practice. -/
abbrev Color := ℤ × ℤ × ℤ

/-- Python `int(...)` on a real number: truncation toward zero. -/
def pyInt (q : ℚ) : ℤ := if 0 ≤ q then ⌊q⌋ else -⌊-q⌋

/-- A PIL image of mode `RGB`: a pixel buffer of `width × height` pixels.
`pix` is total; only coordinates with `0 ≤ x < width` and `0 ≤ y < height`
are meaningful, and every drawing primitive clips to that rectangle. -/
structure Img where
  width : ℤ
  height : ℤ
  pix : ℤ → ℤ → Color

/-- Errors the imaging library or the file system can raise. -/
inductive PILError where
  | valueError (msg : String)
  | ioError (path : String)
deriving DecidableEq

/-- A PIL font handle: a truetype font loaded from a file at a pixel size,
or the built-in default bitmap font (`ImageFont.load_default()`). -/
inductive Font where
  | truetype (path : String) (size : ℤ)
  | defaultFont
deriving DecidableEq

/-- The text engine of the imaging library, abstracted: `bbox font text`
is the 4-tuple `draw.textbbox((0, 0), text, font)`, and
`mask font text dx dy` tells whether the glyph raster of `text` covers the
point `(dx, dy)` relative to the drawing origin. -/
structure FontMetrics where
  bbox : Font → String → ℤ × ℤ × ℤ × ℤ
  mask : Font → String → ℤ → ℤ → Bool

/-- The ambient world of one run of the script. -/
structure Env where
  metrics : FontMetrics
  fontOk : Bool
  writeOk : String → Bool

/-- The background colour literal `'#667eea'` of `Image.new`. -/
def color667eea : Color := (102, 126, 234)

/-- A fresh `size × size` buffer filled with the background colour. -/
def mkBase (size : ℤ) : Img :=
  { width := size, height := size, pix := fun _ _ => color667eea }

/-- `Image.new('RGB', (w, h), color)`: raises `ValueError` on a negative
dimension, otherwise returns a buffer filled with the colour. -/
def imageNew (w h : ℤ) (c : Color) : Except PILError Img :=
  if w < 0 ∨ h < 0 then
    .error (.valueError "Width and height must be >= 0")
  else
    .ok { width := w, height := h, pix := fun _ _ => c }

/-- `draw.line([(x0, y), (x1, y)], fill = c)` for a horizontal segment:
paints every pixel with `x0 ≤ x ≤ x1` on row `y`, clipped to the image. -/
def drawHLine (im : Img) (x0 x1 y : ℤ) (c : Color) : Img :=
  { im with pix := fun a b =>
      if x0 ≤ a ∧ a ≤ x1 ∧ b = y ∧
          0 ≤ a ∧ a < im.width ∧ 0 ≤ b ∧ b < im.height then c
      else im.pix a b }

/-- `draw.rectangle([(x0, y0), (x1, y1)], fill = c)`: paints every pixel of
the inclusive rectangle, clipped to the image. -/
def drawRect (im : Img) (x0 y0 x1 y1 : ℤ) (c : Color) : Img :=
  { im with pix := fun a b =>
      if x0 ≤ a ∧ a ≤ x1 ∧ y0 ≤ b ∧ b ≤ y1 ∧
          0 ≤ a ∧ a < im.width ∧ 0 ≤ b ∧ b < im.height then c
      else im.pix a b }

/-- `draw.text((px, py), text, fill = c, font = font)`: paints the pixels
covered by the glyph mask, clipped to the image. -/
def drawText (m : FontMetrics) (im : Img) (px py : ℤ) (text : String)
    (font : Font) (c : Color) : Img :=
  { im with pix := fun a b =>
      if m.mask font text (a - px) (b - py) = true ∧
          0 ≤ a ∧ a < im.width ∧ 0 ≤ b ∧ b < im.height then c
      else im.pix a b }

/-- Converting a fill colour to ink for an `RGB`-mode image drops the
alpha component. -/
def inkRGB (c : ℤ × ℤ × ℤ × ℤ) : Color := (c.1, c.2.1, c.2.2.1)

/-- The colour of gradient row `y` (body of the `for y in range(size)`
loop): `ratio = y / size`, each channel linearly interpolated and passed
through `int(...)`. -/
def rowColor (size y : ℤ) : Color :=
  let ratio : ℚ := (y : ℚ) / (size : ℚ)
  (pyInt (102 + (118 - 102) * ratio),
   pyInt (126 + (75 - 126) * ratio),
   pyInt (234 + (162 - 234) * ratio))

/-- The gradient loop: for each `y in range(size)` draw a horizontal line
from `(0, y)` to `(size, y)` in the colour of row `y`. -/
def applyGradient (size : ℤ) (img : Img) : Img :=
  (List.range size.toNat).foldl
    (fun im (y : ℕ) => drawHLine im 0 size (y : ℤ) (rowColor size (y : ℤ))) img

/-- The image after the gradient pass, before the text and accent
overlays are drawn. -/
def gradientStage (size : ℤ) : Img := applyGradient size (mkBase size)

/-- The font used for the label: the DejaVuSans-Bold truetype at
`int(size * 0.45)` when it loads, otherwise the built-in default. -/
def fontOf (env : Env) (size : ℤ) : Font :=
  if env.fontOk then
    Font.truetype "/usr/share/fonts/truetype/dejavu/DejaVuSans-Bold.ttf"
      (pyInt ((size : ℚ) * 0.45))
  else
    Font.defaultFont

/-- `cursor_x = int(size * 0.70)`. -/
def cursorX (size : ℤ) : ℤ := pyInt ((size : ℚ) * 0.70)

/-- `cursor_y = int(size * 0.39)`. -/
def cursorY (size : ℤ) : ℤ := pyInt ((size : ℚ) * 0.39)

/-- `cursor_width = max(int(size * 0.03), 2)`. -/
def cursorW (size : ℤ) : ℤ := max (pyInt ((size : ℚ) * 0.03)) 2

/-- `cursor_height = int(size * 0.25)`. -/
def cursorH (size : ℤ) : ℤ := pyInt ((size : ℚ) * 0.25)

/-- The drawing part of `create_icon` (gradient, label, cursor accent)
applied to the freshly allocated buffer `img0`. -/
def finishImage (env : Env) (size : ℤ) (img0 : Img) : Img :=
  let img := applyGradient size img0
  let font := fontOf env size
  let text := "AI"
  let bbox := env.metrics.bbox font text
  let text_width := bbox.2.2.1 - bbox.1
  let text_height := bbox.2.2.2 - bbox.2.1
  let x := Int.fdiv (size - text_width) 2
  let y := Int.fdiv (size - text_height) 2 - pyInt ((size : ℚ) * 0.05)
  let img := drawText env.metrics img x y text font (255, 255, 255)
  let img := drawRect img (cursorX size) (cursorY size)
    (cursorX size + cursorW size) (cursorY size + cursorH size)
    (inkRGB (255, 255, 255, 200))
  img

/-- The pixel buffer `create_icon` builds for a nonnegative `size`. -/
def buildImage (env : Env) (size : ℤ) : Img := finishImage env size (mkBase size)

/-- The value of a successful `create_icon` call: the saved pixel buffer,
the path it was written to, the font that was used, and the line printed. -/
structure RenderResult where
  img : Img
  savedPath : String
  usedFont : Font
  message : String

/-- `create_icon(size, filename)`: allocate, draw, save, print. -/
def create_icon (env : Env) (size : ℤ) (filename : String) :
    Except PILError RenderResult :=
  match imageNew size size color667eea with
  | .error e => .error e
  | .ok img0 =>
      let img := finishImage env size img0
      if env.writeOk filename then
        .ok { img := img, savedPath := filename,
              usedFont := fontOf env size,
              message := "Created " ++ filename }
      else
        .error (.ioError filename)

/-- The fixed list of sizes of `main`. -/
def sizesList : List (ℤ × String) :=
  [(16, "icon16.png"), (48, "icon48.png"), (128, "icon128.png")]

/-- `os.path.join(dir, f)` for a relative `f` and a `dir` without a
trailing separator. -/
def joinPath (dir f : String) : String := dir ++ ("/" ++ f)

/-- The observable outcome of a run of `main`: the files written (path and
pixel buffer, in order), the render calls attempted (in order), and
whether the run completed or aborted with an exception. -/
structure MainResult where
  written : List (String × Img)
  attempted : List (ℤ × String)
  outcome : Except PILError Unit

/-- The `for size, filename in sizes` loop of `main`: each iteration calls
`create_icon`; an uncaught exception aborts the remaining iterations. -/
def mainGo (env : Env) (scriptDir : String) :
    List (ℤ × String) → List (String × Img) → List (ℤ × String) → MainResult
  | [], written, attempted =>
      { written := written, attempted := attempted, outcome := .ok () }
  | (size, filename) :: rest, written, attempted =>
      let filepath := joinPath scriptDir filename
      match create_icon env size filepath with
      | .ok r =>
          mainGo env scriptDir rest (written ++ [(filepath, r.img)])
            (attempted ++ [(size, filepath)])
      | .error e =>
          { written := written, attempted := attempted ++ [(size, filepath)],
            outcome := .error e }

/-- `main()`: iterate the fixed size list, resolving each filename
relative to the script's own directory `scriptDir`. -/
def main (env : Env) (scriptDir : String) : MainResult :=
  mainGo env scriptDir sizesList [] []

/-- A concrete environment for closed evaluations: an empty glyph mask,
zero bounding boxes, the truetype font available, every path writable. -/
def env0 : Env :=
  { metrics := { bbox := fun _ _ => (0, 0, 0, 0), mask := fun _ _ _ _ => false },
    fontOk := true,
    writeOk := fun _ => true }

end Icons

namespace Icons

/-- Colour `c` is within one unit of colour `d` in every channel. -/
def within1 (c d : Color) : Prop :=
  (c.1 - d.1).natAbs ≤ 1 ∧ (c.2.1 - d.2.1).natAbs ≤ 1 ∧ (c.2.2 - d.2.2).natAbs ≤ 1

instance (c d : Color) : Decidable (within1 c d) := by
  unfold within1; infer_instance

/-- A concrete environment whose file system rejects exactly the path
`d/icon48.png`: the second write of `main` fails, the others succeed. -/
def envW : Env :=
  { metrics := { bbox := fun _ _ => (0, 0, 0, 0), mask := fun _ _ _ _ => false },
    fontOk := true,
    writeOk := fun f => !(f == "d/icon48.png") }

lemma pyInt_eq_floor {q : ℚ} (h : 0 ≤ q) : pyInt q = ⌊q⌋ := by
  rw [pyInt, if_pos h]

lemma pyInt_eq_of (q : ℚ) (z : ℤ) (hz : 0 ≤ z) (h1 : (z : ℚ) ≤ q)
    (h2 : q < z + 1) : pyInt q = z := by
  have h0 : 0 ≤ q := le_trans (by exact_mod_cast hz) h1
  rw [pyInt, if_pos h0, Int.floor_eq_iff]
  exact ⟨h1, h2⟩

lemma gradFold_width (s : ℤ) (l : List ℕ) (img : Img) :
    (l.foldl (fun im (k : ℕ) => drawHLine im 0 s (k : ℤ) (rowColor s (k : ℤ))) img).width
      = img.width := by
  induction l generalizing img with
  | nil => rfl
  | cons a t ih => rw [List.foldl_cons]; exact ih _

lemma gradFold_height (s : ℤ) (l : List ℕ) (img : Img) :
    (l.foldl (fun im (k : ℕ) => drawHLine im 0 s (k : ℤ) (rowColor s (k : ℤ))) img).height
      = img.height := by
  induction l generalizing img with
  | nil => rfl
  | cons a t ih => rw [List.foldl_cons]; exact ih _

lemma gradFold_pix (s : ℤ) (n : ℕ) (img : Img)
    (hw : img.width = s) (hh : img.height = s) (x y : ℤ)
    (hx0 : 0 ≤ x) (hxs : x < s) (hy0 : 0 ≤ y) (hyn : y < (n : ℤ)) (hys : y < s) :
    ((List.range n).foldl
        (fun im (k : ℕ) => drawHLine im 0 s (k : ℤ) (rowColor s (k : ℤ))) img).pix x y
      = rowColor s y := by
  induction n with
  | zero =>
      exfalso
      have : (0 : ℤ) ≤ y := hy0
      simp at hyn
      omega
  | succ n ih =>
      rw [List.range_succ, List.foldl_append, List.foldl_cons, List.foldl_nil]
      by_cases hy : y = (n : ℤ)
      · rw [drawHLine]
        have hFw :
            ((List.range n).foldl
              (fun im (k : ℕ) => drawHLine im 0 s (k : ℤ) (rowColor s (k : ℤ))) img).width = s :=
          (gradFold_width s _ img).trans hw
        have hFh :
            ((List.range n).foldl
              (fun im (k : ℕ) => drawHLine im 0 s (k : ℤ) (rowColor s (k : ℤ))) img).height = s :=
          (gradFold_height s _ img).trans hh
        simp only [hFw, hFh]
        rw [if_pos ⟨hx0, le_of_lt hxs, hy, hx0, hxs, hy0, hys⟩, hy]
      · rw [drawHLine]
        simp only
        rw [if_neg (by intro hc; exact hy hc.2.2.1)]
        have hyn' : y < (n : ℤ) := by
          have : y < (n : ℤ) + 1 := by push_cast at hyn; linarith
          omega
        exact ih hyn'

lemma gradientStage_pix (s x y : ℤ) (hx0 : 0 ≤ x) (hxs : x < s)
    (hy0 : 0 ≤ y) (hys : y < s) :
    (gradientStage s).pix x y = rowColor s y := by
  have hs0 : 0 ≤ s := le_trans hy0 (le_of_lt hys)
  have hyn : y < ((s.toNat : ℕ) : ℤ) := by rwa [Int.toNat_of_nonneg hs0]
  exact gradFold_pix s s.toNat (mkBase s) rfl rfl x y hx0 hxs hy0 hyn hys

lemma rowColor_eq (s y r g b : ℤ)
    (h1 : pyInt (102 + (118 - 102) * ((y : ℚ) / (s : ℚ))) = r)
    (h2 : pyInt (126 + (75 - 126) * ((y : ℚ) / (s : ℚ))) = g)
    (h3 : pyInt (234 + (162 - 234) * ((y : ℚ) / (s : ℚ))) = b) :
    rowColor s y = (r, g, b) := by
  simp only [rowColor]
  rw [h1, h2, h3]

lemma rowColor_zero (s : ℤ) : rowColor s 0 = (102, 126, 234) := by
  refine rowColor_eq s 0 102 126 234 ?_ ?_ ?_ <;>
    · norm_num
      exact pyInt_eq_of _ _ (by norm_num) (by norm_num) (by norm_num)

lemma rowColor_16_15 : rowColor 16 15 = (117, 78, 166) :=
  rowColor_eq 16 15 117 78 166
    (pyInt_eq_of _ _ (by norm_num) (by norm_num) (by norm_num))
    (pyInt_eq_of _ _ (by norm_num) (by norm_num) (by norm_num))
    (pyInt_eq_of _ _ (by norm_num) (by norm_num) (by norm_num))

lemma rowColor_48_47 : rowColor 48 47 = (117, 76, 163) :=
  rowColor_eq 48 47 117 76 163
    (pyInt_eq_of _ _ (by norm_num) (by norm_num) (by norm_num))
    (pyInt_eq_of _ _ (by norm_num) (by norm_num) (by norm_num))
    (pyInt_eq_of _ _ (by norm_num) (by norm_num) (by norm_num))

lemma rowColor_128_127 : rowColor 128 127 = (117, 75, 162) :=
  rowColor_eq 128 127 117 75 162
    (pyInt_eq_of _ _ (by norm_num) (by norm_num) (by norm_num))
    (pyInt_eq_of _ _ (by norm_num) (by norm_num) (by norm_num))
    (pyInt_eq_of _ _ (by norm_num) (by norm_num) (by norm_num))

end Icons

namespace Icons

lemma applyGradient_width (s : ℤ) (im : Img) :
    (applyGradient s im).width = im.width := by
  rw [applyGradient]; exact gradFold_width s _ im

lemma applyGradient_height (s : ℤ) (im : Img) :
    (applyGradient s im).height = im.height := by
  rw [applyGradient]; exact gradFold_height s _ im

lemma drawText_width (m : FontMetrics) (im : Img) (px py : ℤ) (t : String)
    (f : Font) (c : Color) : (drawText m im px py t f c).width = im.width := rfl

lemma drawText_height (m : FontMetrics) (im : Img) (px py : ℤ) (t : String)
    (f : Font) (c : Color) : (drawText m im px py t f c).height = im.height := rfl

lemma finishImage_width (env : Env) (s : ℤ) (im0 : Img) :
    (finishImage env s im0).width = im0.width := by
  simp only [finishImage, drawRect, drawText_width, applyGradient_width]

lemma finishImage_height (env : Env) (s : ℤ) (im0 : Img) :
    (finishImage env s im0).height = im0.height := by
  simp only [finishImage, drawRect, drawText_height, applyGradient_height]

lemma buildImage_width (env : Env) (s : ℤ) : (buildImage env s).width = s := by
  rw [buildImage, finishImage_width]; rfl

lemma buildImage_height (env : Env) (s : ℤ) : (buildImage env s).height = s := by
  rw [buildImage, finishImage_height]; rfl

lemma pyInt_nonneg {q : ℚ} (h : 0 ≤ q) : 0 ≤ pyInt q := by
  rw [pyInt_eq_floor h]
  exact Int.le_floor.mpr (by push_cast; exact h)

lemma buildImage_pix_rect (env : Env) (s x y : ℤ)
    (hx0 : 0 ≤ x) (hxs : x < s) (hy0 : 0 ≤ y) (hys : y < s)
    (h1 : cursorX s ≤ x) (h2 : x ≤ cursorX s + cursorW s)
    (h3 : cursorY s ≤ y) (h4 : y ≤ cursorY s + cursorH s) :
    (buildImage env s).pix x y = (255, 255, 255) := by
  simp only [buildImage, finishImage, drawRect, drawText_width, drawText_height,
    applyGradient_width, applyGradient_height, mkBase]
  rw [if_pos ⟨h1, h2, h3, h4, hx0, hxs, hy0, hys⟩]
  rfl

lemma cursor_fit (s : ℤ) (hs : 7 ≤ s) :
    0 ≤ cursorX s ∧ 0 ≤ cursorY s ∧
    cursorX s + cursorW s < s ∧ cursorY s + cursorH s < s := by
  have hsq : (7 : ℚ) ≤ (s : ℚ) := by exact_mod_cast hs
  refine ⟨pyInt_nonneg (by nlinarith), pyInt_nonneg (by nlinarith), ?_, ?_⟩
  · rw [cursorX, cursorW, pyInt_eq_floor (by nlinarith), pyInt_eq_floor (by nlinarith)]
    rcases le_total (⌊(s : ℚ) * 0.03⌋) 2 with h | h
    · rw [max_eq_right h]
      have hfl : ⌊(s : ℚ) * 0.70⌋ ≤ s - 3 := by
        rw [Int.floor_le_iff]
        push_cast
        nlinarith
      omega
    · rw [max_eq_left h]
      have h70 : ((⌊(s : ℚ) * 0.70⌋ : ℤ) : ℚ) ≤ (s : ℚ) * 0.70 := Int.floor_le _
      have h03 : ((⌊(s : ℚ) * 0.03⌋ : ℤ) : ℚ) ≤ (s : ℚ) * 0.03 := Int.floor_le _
      have hq : ((⌊(s : ℚ) * 0.70⌋ + ⌊(s : ℚ) * 0.03⌋ : ℤ) : ℚ) < (s : ℚ) := by
        push_cast
        nlinarith
      exact_mod_cast hq
  · rw [cursorY, cursorH, pyInt_eq_floor (by nlinarith), pyInt_eq_floor (by nlinarith)]
    have h39 : ((⌊(s : ℚ) * 0.39⌋ : ℤ) : ℚ) ≤ (s : ℚ) * 0.39 := Int.floor_le _
    have h25 : ((⌊(s : ℚ) * 0.25⌋ : ℤ) : ℚ) ≤ (s : ℚ) * 0.25 := Int.floor_le _
    have hq : ((⌊(s : ℚ) * 0.39⌋ + ⌊(s : ℚ) * 0.25⌋ : ℤ) : ℚ) < (s : ℚ) := by
      push_cast
      nlinarith
    exact_mod_cast hq

lemma cursorX_6 : cursorX 6 = 4 := by
  rw [cursorX]; exact pyInt_eq_of _ _ (by norm_num) (by norm_num) (by norm_num)

lemma cursorW_6 : cursorW 6 = 2 := by
  rw [cursorW, pyInt_eq_of _ 0 le_rfl (by norm_num) (by norm_num)]
  norm_num

lemma cursorX_16 : cursorX 16 = 11 := by
  rw [cursorX]; exact pyInt_eq_of _ _ (by norm_num) (by norm_num) (by norm_num)

lemma cursorY_16 : cursorY 16 = 6 := by
  rw [cursorY]; exact pyInt_eq_of _ _ (by norm_num) (by norm_num) (by norm_num)

lemma cursorW_16 : cursorW 16 = 2 := by
  rw [cursorW, pyInt_eq_of _ 0 le_rfl (by norm_num) (by norm_num)]
  norm_num

lemma cursorH_16 : cursorH 16 = 4 := by
  rw [cursorH]; exact pyInt_eq_of _ _ (by norm_num) (by norm_num) (by norm_num)

lemma cursorX_48 : cursorX 48 = 33 := by
  rw [cursorX]; exact pyInt_eq_of _ _ (by norm_num) (by norm_num) (by norm_num)

lemma imageNew_ok (w h : ℤ) (c : Color) (hw : ¬ w < 0) (hh : ¬ h < 0) :
    imageNew w h c = .ok { width := w, height := h, pix := fun _ _ => c } := by
  rw [imageNew, if_neg (fun hc => hc.elim hw hh)]

lemma create_icon_neg (env : Env) (s : ℤ) (f : String) (hs : s < 0) :
    create_icon env s f = .error (.valueError "Width and height must be >= 0") := by
  rw [create_icon, imageNew, if_pos (Or.inl hs)]

lemma create_icon_ok (env : Env) (s : ℤ) (f : String)
    (hs : ¬ s < 0) (hw : env.writeOk f = true) :
    create_icon env s f =
      .ok { img := buildImage env s, savedPath := f,
            usedFont := fontOf env s, message := "Created " ++ f } := by
  rw [create_icon, imageNew_ok s s color667eea hs hs]
  simp only [hw, if_true, buildImage, mkBase]

lemma create_icon_err (env : Env) (s : ℤ) (f : String)
    (hs : ¬ s < 0) (hw : env.writeOk f = false) :
    create_icon env s f = .error (.ioError f) := by
  rw [create_icon, imageNew_ok s s color667eea hs hs]
  simp only [hw]
  rfl

end Icons

namespace Icons

/-- Claim C1, counterexample: at `size = 0` the render does not fail at
all (no `RenderError` exists anywhere in the program): `create_icon`
completes and the saved buffer is a degenerate `0 × 0` image. -/
theorem C1_counterexample :
    (create_icon env0 0 "icon0.png").isOk = true ∧
    Except.map (fun r => r.img.width) (create_icon env0 0 "icon0.png") = .ok 0 :=
  ⟨rfl, rfl⟩

/-- Claim C1 (amended): `create_icon` performs no size validation and
never raises a `RenderError`.  For `size < 0` the imaging library's
constructor raises `ValueError`, which propagates; for `size = 0` the call
completes, producing a degenerate `0 × 0` image. -/
theorem C1_size_validation (env : Env) (f : String) :
    (∀ s : ℤ, s < 0 →
      create_icon env s f = .error (.valueError "Width and height must be >= 0")) ∧
    (env.writeOk f = true →
      Except.map (fun r => (r.img.width, r.img.height)) (create_icon env 0 f)
        = .ok (0, 0)) := by
  constructor
  · intro s hs
    exact create_icon_neg env s f hs
  · intro hw
    rw [create_icon_ok env 0 f (by omega) hw]
    simp [Except.map, buildImage_width, buildImage_height]

/-- Witness for C1 at `size = -1` and `size = 0`. -/
theorem C1_size_validation_witness :
    ((-1 : ℤ) < 0 ∧
      create_icon env0 (-1) "icon.png"
        = .error (.valueError "Width and height must be >= 0")) ∧
    (env0.writeOk "icon.png" = true ∧
      Except.map (fun r => (r.img.width, r.img.height)) (create_icon env0 0 "icon.png")
        = .ok (0, 0)) :=
  ⟨⟨by norm_num, (C1_size_validation env0 "icon.png").1 (-1) (by norm_num)⟩,
   ⟨rfl, (C1_size_validation env0 "icon.png").2 rfl⟩⟩

/-- Claim C2, counterexample: at `size = 48` the code computes
`cursor_x = int(48 * 0.70) = 33`, while the claimed `round(0.70 * 48)` is
`34`: the accent rectangle's corner is not at the rounded coordinates. -/
theorem C2_counterexample :
    cursorX 48 = 33 ∧ ¬ cursorX 48 = round ((0.70 : ℚ) * 48) := by
  have hr : round ((0.70 : ℚ) * 48) = 34 := by norm_num [round_eq]
  exact ⟨cursorX_48, by rw [cursorX_48, hr]; norm_num⟩

/-- Claim C2 (amended): for every positive size, the accent rectangle's
top-left corner is `(trunc(0.70*size), trunc(0.39*size))` — truncation
(floor, as the values are nonnegative), not rounding — its width is
`max(trunc(0.03*size), 2)` and its height `trunc(0.25*size)`. -/
theorem C2_cursor_geometry (s : ℤ) (hs : 0 < s) :
    cursorX s = ⌊(s : ℚ) * 0.70⌋ ∧ cursorY s = ⌊(s : ℚ) * 0.39⌋ ∧
    cursorW s = max ⌊(s : ℚ) * 0.03⌋ 2 ∧ cursorH s = ⌊(s : ℚ) * 0.25⌋ := by
  have hsq : (0 : ℚ) ≤ (s : ℚ) := by exact_mod_cast le_of_lt hs
  exact ⟨by rw [cursorX, pyInt_eq_floor (by nlinarith)],
         by rw [cursorY, pyInt_eq_floor (by nlinarith)],
         by rw [cursorW, pyInt_eq_floor (by nlinarith)],
         by rw [cursorH, pyInt_eq_floor (by nlinarith)]⟩

/-- Witness for C2 at `size = 48`. -/
theorem C2_cursor_geometry_witness :
    (0 : ℤ) < 48 ∧
    (cursorX 48 = ⌊((48 : ℤ) : ℚ) * 0.70⌋ ∧
     cursorY 48 = ⌊((48 : ℤ) : ℚ) * 0.39⌋ ∧
     cursorW 48 = max ⌊((48 : ℤ) : ℚ) * 0.03⌋ 2 ∧
     cursorH 48 = ⌊((48 : ℤ) : ℚ) * 0.25⌋) :=
  ⟨by norm_num, C2_cursor_geometry 48 (by norm_num)⟩

/-- Claim C3, counterexample: at `size = 16` the bottom gradient row
(y = 15) is `(117, 78, 166)`, whose G and B channels are 3 and 4 units
away from the stated end colour `(118, 75, 162)` — outside the one-unit
tolerance. -/
theorem C3_counterexample :
    (gradientStage 16).pix 0 15 = (117, 78, 166) ∧
    ¬ within1 (117, 78, 166) (118, 75, 162) := by
  constructor
  · rw [gradientStage_pix 16 0 15 (by norm_num) (by norm_num) (by norm_num) (by norm_num)]
    exact rowColor_16_15
  · decide

/-- Claim C3 (amended): before the overlays are drawn, the top gradient
row is exactly the start colour `(102, 126, 234)` for all three sizes;
the bottom row is within one unit of the end colour `(118, 75, 162)` for
sizes 48 and 128, but for size 16 it equals `(117, 78, 166)`, up to four
units away (the loop's ratio only reaches `(size-1)/size`). -/
theorem C3_gradient_endpoints (x : ℤ) :
    (0 ≤ x → x < 16 →
        (gradientStage 16).pix x 0 = (102, 126, 234) ∧
        (gradientStage 16).pix x 15 = (117, 78, 166)) ∧
    (0 ≤ x → x < 48 →
        (gradientStage 48).pix x 0 = (102, 126, 234) ∧
        (gradientStage 48).pix x 47 = (117, 76, 163) ∧
        within1 (117, 76, 163) (118, 75, 162)) ∧
    (0 ≤ x → x < 128 →
        (gradientStage 128).pix x 0 = (102, 126, 234) ∧
        (gradientStage 128).pix x 127 = (117, 75, 162) ∧
        within1 (117, 75, 162) (118, 75, 162)) := by
  refine ⟨fun h1 h2 => ⟨?_, ?_⟩, fun h1 h2 => ⟨?_, ?_, by decide⟩,
          fun h1 h2 => ⟨?_, ?_, by decide⟩⟩
  all_goals rw [gradientStage_pix _ _ _ h1 h2 (by norm_num) (by norm_num)]
  exacts [rowColor_zero 16, rowColor_16_15, rowColor_zero 48, rowColor_48_47,
          rowColor_zero 128, rowColor_128_127]

/-- Witness for C3 at column `x = 0`. -/
theorem C3_gradient_endpoints_witness :
    ((0 : ℤ) ≤ 0 ∧ (0 : ℤ) < 16) ∧
    ((gradientStage 16).pix 0 0 = (102, 126, 234) ∧
     (gradientStage 16).pix 0 15 = (117, 78, 166)) :=
  ⟨⟨le_rfl, by norm_num⟩, (C3_gradient_endpoints 0).1 le_rfl (by norm_num)⟩

/-- Claim C4 (confirmed): for every positive size and every row
`y ∈ [0, size)`, the gradient pass fills the whole row with the single
colour obtained by truncated linear interpolation at `ratio = y / size`;
the colour is independent of the column `x`. -/
theorem C4_gradient_rows (s y x : ℤ) (hs : 0 < s) (hy0 : 0 ≤ y) (hys : y < s)
    (hx0 : 0 ≤ x) (hxs : x < s) :
    (gradientStage s).pix x y =
      (pyInt (102 + (118 - 102) * ((y : ℚ) / (s : ℚ))),
       pyInt (126 + (75 - 126) * ((y : ℚ) / (s : ℚ))),
       pyInt (234 + (162 - 234) * ((y : ℚ) / (s : ℚ)))) := by
  rw [gradientStage_pix s x y hx0 hxs hy0 hys]
  rfl

/-- Witness for C4 at `size = 16`, row 3, column 5. -/
theorem C4_gradient_rows_witness :
    ((0 : ℤ) < 16 ∧ (0 : ℤ) ≤ 3 ∧ (3 : ℤ) < 16 ∧ (0 : ℤ) ≤ 5 ∧ (5 : ℤ) < 16) ∧
    (gradientStage 16).pix 5 3 =
      (pyInt (102 + (118 - 102) * (((3 : ℤ) : ℚ) / ((16 : ℤ) : ℚ))),
       pyInt (126 + (75 - 126) * (((3 : ℤ) : ℚ) / ((16 : ℤ) : ℚ))),
       pyInt (234 + (162 - 234) * (((3 : ℤ) : ℚ) / ((16 : ℤ) : ℚ)))) :=
  ⟨⟨by norm_num, by norm_num, by norm_num, by norm_num, by norm_num⟩,
   C4_gradient_rows 16 3 5 (by norm_num) (by norm_num) (by norm_num)
     (by norm_num) (by norm_num)⟩

/-- Claim C5 (confirmed): down the drawn gradient the R channel is
non-decreasing and the G and B channels are non-increasing, with no
reversal between any two rows. -/
theorem C5_gradient_monotone (s x y1 y2 : ℤ) (hs : 0 < s)
    (hx0 : 0 ≤ x) (hxs : x < s)
    (hy0 : 0 ≤ y1) (h12 : y1 ≤ y2) (h2s : y2 < s) :
    ((gradientStage s).pix x y1).1 ≤ ((gradientStage s).pix x y2).1 ∧
    ((gradientStage s).pix x y2).2.1 ≤ ((gradientStage s).pix x y1).2.1 ∧
    ((gradientStage s).pix x y2).2.2 ≤ ((gradientStage s).pix x y1).2.2 := by
  rw [gradientStage_pix s x y1 hx0 hxs hy0 (lt_of_le_of_lt h12 h2s),
      gradientStage_pix s x y2 hx0 hxs (le_trans hy0 h12) h2s]
  have hsq : (0 : ℚ) < (s : ℚ) := by exact_mod_cast hs
  have hc12 : (y1 : ℚ) ≤ (y2 : ℚ) := by exact_mod_cast h12
  have ht12 : (y1 : ℚ) / (s : ℚ) ≤ (y2 : ℚ) / (s : ℚ) := by gcongr
  have ht0 : (0 : ℚ) ≤ (y1 : ℚ) / (s : ℚ) :=
    div_nonneg (by exact_mod_cast hy0) (le_of_lt hsq)
  have ht1 : (y2 : ℚ) / (s : ℚ) < 1 := (div_lt_one hsq).mpr (by exact_mod_cast h2s)
  simp only [rowColor]
  refine ⟨?_, ?_, ?_⟩
  · rw [pyInt_eq_floor (by nlinarith), pyInt_eq_floor (by nlinarith)]
    exact Int.floor_mono (by nlinarith)
  · rw [pyInt_eq_floor (by nlinarith), pyInt_eq_floor (by nlinarith)]
    exact Int.floor_mono (by nlinarith)
  · rw [pyInt_eq_floor (by nlinarith), pyInt_eq_floor (by nlinarith)]
    exact Int.floor_mono (by nlinarith)

/-- Witness for C5 at `size = 16`, rows 0 and 15, column 0. -/
theorem C5_gradient_monotone_witness :
    ((0 : ℤ) < 16 ∧ (0 : ℤ) ≤ 0 ∧ (0 : ℤ) ≤ 15 ∧ (15 : ℤ) < 16) ∧
    (((gradientStage 16).pix 0 0).1 ≤ ((gradientStage 16).pix 0 15).1 ∧
     ((gradientStage 16).pix 0 15).2.1 ≤ ((gradientStage 16).pix 0 0).2.1 ∧
     ((gradientStage 16).pix 0 15).2.2 ≤ ((gradientStage 16).pix 0 0).2.2) :=
  ⟨⟨by norm_num, le_rfl, by norm_num, by norm_num⟩,
   C5_gradient_monotone 16 0 0 15 (by norm_num) le_rfl (by norm_num) le_rfl
     (by norm_num) (by norm_num)⟩

end Icons

namespace Icons

/-- Claim C6 (confirmed): with every output path writable, `main` performs
exactly three rendering calls, in order, at sizes 16, 48, 128, each path
resolved relative to the script's directory, and each written image is
square with side equal to the size in its filename. -/
theorem C6_main_iteration (env : Env) (scriptDir : String)
    (hw : ∀ f, env.writeOk f = true) :
    (main env scriptDir).attempted =
      [(16, scriptDir ++ "/icon16.png"), (48, scriptDir ++ "/icon48.png"),
       (128, scriptDir ++ "/icon128.png")] ∧
    (main env scriptDir).outcome = .ok () ∧
    (main env scriptDir).written.map Prod.fst =
      [scriptDir ++ "/icon16.png", scriptDir ++ "/icon48.png",
       scriptDir ++ "/icon128.png"] ∧
    (main env scriptDir).written.map (fun p => (p.2.width, p.2.height)) =
      [(16, 16), (48, 48), (128, 128)] := by
  have e16 : ("/" ++ "icon16.png" : String) = "/icon16.png" := rfl
  have e48 : ("/" ++ "icon48.png" : String) = "/icon48.png" := rfl
  have e128 : ("/" ++ "icon128.png" : String) = "/icon128.png" := rfl
  have h16 := create_icon_ok env 16 (scriptDir ++ "/icon16.png") (by norm_num) (hw _)
  have h48 := create_icon_ok env 48 (scriptDir ++ "/icon48.png") (by norm_num) (hw _)
  have h128 := create_icon_ok env 128 (scriptDir ++ "/icon128.png") (by norm_num) (hw _)
  simp only [main, mainGo, sizesList, joinPath, e16, e48, e128, h16, h128, h48,
    List.nil_append, List.cons_append, List.map_cons, List.map_nil]
  simp [buildImage_width, buildImage_height]

/-- Witness for C6 with a trivial metrics record and script directory. -/
theorem C6_main_iteration_witness :
    (∀ f, env0.writeOk f = true) ∧
    ((main env0 "dir").attempted =
      [(16, "dir" ++ "/icon16.png"), (48, "dir" ++ "/icon48.png"),
       (128, "dir" ++ "/icon128.png")] ∧
    (main env0 "dir").outcome = .ok () ∧
    (main env0 "dir").written.map Prod.fst =
      ["dir" ++ "/icon16.png", "dir" ++ "/icon48.png", "dir" ++ "/icon128.png"] ∧
    (main env0 "dir").written.map (fun p => (p.2.width, p.2.height)) =
      [(16, 16), (48, 48), (128, 128)]) :=
  ⟨fun _ => rfl, C6_main_iteration env0 "dir" (fun _ => rfl)⟩

/-- Claim C7 (confirmed): when the truetype font fails to load, the bare
`except:` falls back to the built-in default font and the render still
completes; the font-load failure never propagates out of `create_icon`. -/
theorem C7_font_fallback (m : FontMetrics) (w : String → Bool) (s : ℤ) (f : String)
    (hs : 0 ≤ s) (hw : w f = true) :
    create_icon { metrics := m, fontOk := false, writeOk := w } s f =
      .ok { img := buildImage { metrics := m, fontOk := false, writeOk := w } s,
            savedPath := f, usedFont := Font.defaultFont,
            message := "Created " ++ f } := by
  rw [create_icon_ok _ s f (not_lt.mpr hs) hw]
  simp [fontOf]

/-- Witness for C7 at `size = 16`. -/
theorem C7_font_fallback_witness :
    ((0 : ℤ) ≤ 16 ∧ (fun (_ : String) => true) "x.png" = true) ∧
    create_icon { metrics := env0.metrics, fontOk := false,
                  writeOk := fun _ => true } 16 "x.png" =
      .ok { img := buildImage { metrics := env0.metrics, fontOk := false,
                                writeOk := fun _ => true } 16,
            savedPath := "x.png", usedFont := Font.defaultFont,
            message := "Created " ++ "x.png" } :=
  ⟨⟨by norm_num, rfl⟩,
   C7_font_fallback env0.metrics (fun _ => true) 16 "x.png" (by norm_num) rfl⟩

/-- Claim C8 (confirmed): if the k-th render call of `main`'s fixed
three-element iteration fails, the files written by the earlier calls
remain (with their rendered buffers unchanged) and no later call is
attempted — no retries, no bookkeeping. -/
theorem C8_abort_on_failure (env : Env) (d : String) :
    (env.writeOk (d ++ "/icon16.png") = false →
      main env d =
        { written := [],
          attempted := [(16, d ++ "/icon16.png")],
          outcome := .error (.ioError (d ++ "/icon16.png")) }) ∧
    (env.writeOk (d ++ "/icon16.png") = true →
     env.writeOk (d ++ "/icon48.png") = false →
      main env d =
        { written := [(d ++ "/icon16.png", buildImage env 16)],
          attempted := [(16, d ++ "/icon16.png"), (48, d ++ "/icon48.png")],
          outcome := .error (.ioError (d ++ "/icon48.png")) }) ∧
    (env.writeOk (d ++ "/icon16.png") = true →
     env.writeOk (d ++ "/icon48.png") = true →
     env.writeOk (d ++ "/icon128.png") = false →
      main env d =
        { written := [(d ++ "/icon16.png", buildImage env 16),
                      (d ++ "/icon48.png", buildImage env 48)],
          attempted := [(16, d ++ "/icon16.png"), (48, d ++ "/icon48.png"),
                        (128, d ++ "/icon128.png")],
          outcome := .error (.ioError (d ++ "/icon128.png")) }) := by
  have e16 : ("/" ++ "icon16.png" : String) = "/icon16.png" := rfl
  have e48 : ("/" ++ "icon48.png" : String) = "/icon48.png" := rfl
  have e128 : ("/" ++ "icon128.png" : String) = "/icon128.png" := rfl
  refine ⟨?_, ?_, ?_⟩
  · intro h16
    have c16 := create_icon_err env 16 (d ++ "/icon16.png") (by norm_num) h16
    simp only [main, mainGo, sizesList, joinPath, e16, c16, List.nil_append]
  · intro h16 h48
    have c16 := create_icon_ok env 16 (d ++ "/icon16.png") (by norm_num) h16
    have c48 := create_icon_err env 48 (d ++ "/icon48.png") (by norm_num) h48
    simp only [main, mainGo, sizesList, joinPath, e16, e48, c16, c48,
      List.nil_append, List.cons_append]
  · intro h16 h48 h128
    have c16 := create_icon_ok env 16 (d ++ "/icon16.png") (by norm_num) h16
    have c48 := create_icon_ok env 48 (d ++ "/icon48.png") (by norm_num) h48
    have c128 := create_icon_err env 128 (d ++ "/icon128.png") (by norm_num) h128
    simp only [main, mainGo, sizesList, joinPath, e16, e48, e128, c16, c48, c128,
      List.nil_append, List.cons_append, List.append_nil]

/-- Witness for C8: with exactly the second path unwritable, icon 1 stays
written, icon 2 aborts the run, icon 3 is never attempted. -/
theorem C8_abort_on_failure_witness :
    (envW.writeOk ("d" ++ "/icon16.png") = true ∧
     envW.writeOk ("d" ++ "/icon48.png") = false) ∧
    main envW "d" =
      { written := [("d" ++ "/icon16.png", buildImage envW 16)],
        attempted := [(16, "d" ++ "/icon16.png"), (48, "d" ++ "/icon48.png")],
        outcome := .error (.ioError ("d" ++ "/icon48.png")) } :=
  ⟨⟨rfl, rfl⟩, (C8_abort_on_failure envW "d").2.1 rfl rfl⟩

/-- Claim C9 (confirmed): the rendered pixel buffer is a function of the
size, the text engine and the font availability alone — in particular it
is identical across runs with identical inputs and does not depend on the
output path (the PNG container around it is outside the model). -/
theorem C9_deterministic_pixels (env : Env) (s : ℤ) (f1 f2 : String)
    (h1 : env.writeOk f1 = true) (h2 : env.writeOk f2 = true) :
    Except.map (fun r => r.img) (create_icon env s f1) =
    Except.map (fun r => r.img) (create_icon env s f2) := by
  by_cases hs : s < 0
  · rw [create_icon_neg env s f1 hs, create_icon_neg env s f2 hs]
  · rw [create_icon_ok env s f1 hs h1, create_icon_ok env s f2 hs h2]
    rfl

/-- Witness for C9: two runs at size 16 writing to different paths. -/
theorem C9_deterministic_pixels_witness :
    (env0.writeOk "a.png" = true ∧ env0.writeOk "b.png" = true) ∧
    Except.map (fun r => r.img) (create_icon env0 16 "a.png") =
    Except.map (fun r => r.img) (create_icon env0 16 "b.png") :=
  ⟨⟨rfl, rfl⟩, C9_deterministic_pixels env0 16 "a.png" "b.png" rfl rfl⟩

/-- Claim C10 (amended): for every size ≥ 7 the accent rectangle lies
strictly inside the image, so the drawn rectangle includes both corner
coordinates and spans `cursor_width + 1` columns, and — the base image
being opaque RGB — the alpha 200 of the fill is dropped: every pixel of
the rectangle is fully opaque pure white.  (For sizes ≤ 6 the rectangle
is clipped at the right edge; see the counterexample.) -/
theorem C10_accent_rectangle (env : Env) (s x y : ℤ) (hs : 7 ≤ s)
    (h1 : cursorX s ≤ x) (h2 : x ≤ cursorX s + cursorW s)
    (h3 : cursorY s ≤ y) (h4 : y ≤ cursorY s + cursorH s) :
    (buildImage env s).pix x y = (255, 255, 255) ∧
    inkRGB (255, 255, 255, 200) = (255, 255, 255) ∧
    0 ≤ cursorX s ∧ cursorX s + cursorW s < s ∧
    0 ≤ cursorY s ∧ cursorY s + cursorH s < s := by
  obtain ⟨hcx, hcy, hxw, hyh⟩ := cursor_fit s hs
  refine ⟨?_, rfl, hcx, hxw, hcy, hyh⟩
  exact buildImage_pix_rect env s x y (le_trans hcx h1) (lt_of_le_of_lt h2 hxw)
    (le_trans hcy h3) (lt_of_le_of_lt h4 hyh) h1 h2 h3 h4

/-- Witness for C10 at `size = 16`, pixel (11, 6) — the rectangle's
top-left corner. -/
theorem C10_accent_rectangle_witness :
    ((7 : ℤ) ≤ 16 ∧ cursorX 16 ≤ 11 ∧ (11 : ℤ) ≤ cursorX 16 + cursorW 16 ∧
     cursorY 16 ≤ 6 ∧ (6 : ℤ) ≤ cursorY 16 + cursorH 16) ∧
    ((buildImage env0 16).pix 11 6 = (255, 255, 255) ∧
     inkRGB (255, 255, 255, 200) = (255, 255, 255) ∧
     0 ≤ cursorX 16 ∧ cursorX 16 + cursorW 16 < 16 ∧
     0 ≤ cursorY 16 ∧ cursorY 16 + cursorH 16 < 16) :=
  ⟨⟨by norm_num, by rw [cursorX_16], by rw [cursorX_16, cursorW_16]; norm_num,
    by rw [cursorY_16], by rw [cursorY_16, cursorH_16]; norm_num⟩,
   C10_accent_rectangle env0 16 11 6 (by norm_num)
     (by rw [cursorX_16])
     (by rw [cursorX_16, cursorW_16]; norm_num)
     (by rw [cursorY_16])
     (by rw [cursorY_16, cursorH_16]; norm_num)⟩

/-- Claim C10, counterexample: at `size = 6` the rectangle's inclusive
right corner column is `cursorX 6 + cursorW 6 = 6`, which is outside the
6-pixel-wide image, so the drawn rectangle is clipped: it spans only 2
columns, not `cursor_width + 1 = 3`. -/
theorem C10_counterexample :
    cursorW 6 + 1 = 3 ∧ (buildImage env0 6).width = 6 ∧
    cursorX 6 + cursorW 6 = 6 ∧
    ((List.range 6).filter
      (fun a => decide (cursorX 6 ≤ (a : ℤ) ∧ (a : ℤ) ≤ cursorX 6 + cursorW 6))).length
      = 2 := by
  refine ⟨by rw [cursorW_6]; norm_num, buildImage_width env0 6,
    by rw [cursorX_6, cursorW_6]; norm_num, ?_⟩
  simp only [cursorX_6, cursorW_6]
  decide

end Icons
